import Mathlib

/-!
Verification of the NL-Alert integration core (`sensor.py`).

This file gives a shallow embedding of the pure computational core of the
integration — the polygon parser, the geometry kernel, the per-feed alert
normalizers and the geofence evaluator — and proves the main functional
properties stated in the specification.

Modelling conventions:
* Python floats are modelled as exact numbers: parsed coordinate literals
  and epoch timestamps as `ℚ`, trigonometric geometry as `ℝ`.
  No claim proved here depends on rounding behaviour.
* Fallible Python code (`try`/`except`) is modelled with `Option`.
* Dynamic payload values are modelled with small inductive types whose
  constructors cover the shapes the code distinguishes with `isinstance`
  and truthiness tests.
* External library calls that the core merely forwards to
  (`dt_util.parse_datetime`, `dt_util.as_local(...).isoformat()`) are
  modelled as already-resolved inputs: parsed datetimes arrive as
  `Option ℚ` instants (with `none` for a missing or unparseable bound),
  and the local-ISO formatter is an explicit function parameter `fmt`.
-/

/-! ### Python value helpers -/

/-- Python `x or y` on two optional strings, where both `None` and the empty
string are falsy: `None or y` and `"" or y` give `y`, otherwise `x`. -/
def pyOrStr (x y : Option String) : Option String :=
  match x with
  | some s => if s = "" then y else some s
  | none => y

/-- Python truthiness of an optional string: `None` and `""` are falsy. -/
def pyTruthyStr (x : Option String) : Bool :=
  match x with
  | some s => s ≠ ""
  | none => false

/-! ### Decimal number parsing

The polygon parser calls Python's builtin `float` on each coordinate
literal.  We model the decimal fragment of `float` that coordinate strings
use: an optional sign, an integer part, an optional fractional part (at
least one digit overall), and an optional exponent.  Special forms such as
`inf`, `nan` and underscore separators are not representable as `ℚ` or do
not occur in coordinate feeds and are rejected by the model. -/

/-- Numeric value of a list of decimal digit characters, most significant
first. -/
def digitsVal (cs : List Char) : ℚ :=
  cs.foldl (fun acc c => acc * 10 + ((c.toNat - 48 : ℕ) : ℚ)) 0

/-- Natural-number value of a list of decimal digit characters. -/
def natDigitsVal (cs : List Char) : ℕ :=
  cs.foldl (fun acc c => acc * 10 + (c.toNat - 48)) 0

/-- Parse the optional exponent suffix of a float literal and apply it to
the mantissa. The character list must be exactly a sign followed by at
least one digit. -/
def applyExponent (mant : ℚ) (cs : List Char) : Option ℚ :=
  let signAndDigits : Int × List Char :=
    match cs with
    | '+' :: r => (1, r)
    | '-' :: r => (-1, r)
    | r => (1, r)
  let ds := signAndDigits.2
  if ds.isEmpty || !ds.all (·.isDigit) then none
  else some (mant * (10 : ℚ) ^ (signAndDigits.1 * (natDigitsVal ds : Int)))

/-- Parse the part of a float literal after `e`/`E`, or accept the end of
the string. -/
def finishMantissa (mant : ℚ) : List Char → Option ℚ
  | [] => some mant
  | 'e' :: rest => applyExponent mant rest
  | 'E' :: rest => applyExponent mant rest
  | _ => none

/-- Parse an unsigned float literal: digits, an optional `.` with further
digits (at least one digit overall), and an optional exponent. -/
def parseUnsignedFloat (cs : List Char) : Option ℚ :=
  let intPart := cs.takeWhile (·.isDigit)
  let rest := cs.drop intPart.length
  match rest with
  | '.' :: rest2 =>
    let fracPart := rest2.takeWhile (·.isDigit)
    let rest3 := rest2.drop fracPart.length
    if intPart.isEmpty && fracPart.isEmpty then none
    else finishMantissa (digitsVal intPart + digitsVal fracPart / 10 ^ fracPart.length) rest3
  | _ => if intPart.isEmpty then none else finishMantissa (digitsVal intPart) rest

/-- Model of Python's builtin `float` on a string (as its character list):
optional sign, then an unsigned decimal literal.  Returns `none` where
`float` raises `ValueError`. -/
def parseFloatChars (cs : List Char) : Option ℚ :=
  match cs with
  | '+' :: cs' => parseUnsignedFloat cs'
  | '-' :: cs' => (parseUnsignedFloat cs').map Neg.neg
  | cs' => parseUnsignedFloat cs'

/-! ### Polygon parser (`_iter_polygons`) -/

/-- A polygon is an ordered list of `(lat, lon)` vertices. -/
abbrev Polygon := List (ℚ × ℚ)

/-- Shape of the raw `area` field of an NL-Alert item.  `vNone` is an
absent/`None` value, `vStr` a single string, `vList` a list (whose entries
may themselves be arbitrary values; only strings are parsed), and `vOther`
any other (truthy) non-string, non-list value such as a number or a dict. -/
inductive AreaVal where
  | vNone : AreaVal
  | vStr : String → AreaVal
  | vList : List AreaVal → AreaVal
  | vOther : AreaVal

/-- Python truthiness of an `area` value: `None`, `""` and `[]` are falsy.
`vOther` stands for a *truthy* non-string, non-list value. -/
def AreaVal.isFalsy : AreaVal → Bool
  | .vNone => true
  | .vStr s => s = ""
  | .vList l => l.isEmpty
  | .vOther => false

/-- Split a character list at every character satisfying `p`, keeping empty
pieces — the semantics of Python's `str.split(sep)` for a one-character
separator (and the common core of `str.split()`). -/
def splitOnPredAux (p : Char → Bool) : List Char → List Char → List (List Char)
  | [], acc => [acc.reverse]
  | c :: rest, acc =>
    if p c then acc.reverse :: splitOnPredAux p rest []
    else splitOnPredAux p rest (c :: acc)

/-- Split a character list at every character satisfying `p`. -/
def splitOnPred (p : Char → Bool) (cs : List Char) : List (List Char) :=
  splitOnPredAux p cs []

/-- Python `s.split()` (used via `entry.strip().split()`): split on runs of
whitespace, discarding empty pieces. -/
def pySplitWs (cs : List Char) : List (List Char) :=
  (splitOnPred Char.isWhitespace cs).filter (· ≠ [])

/-- Parse one whitespace-separated token: `pair.split(",")` must produce
exactly two float-parseable parts (`plat, plon = map(float, pair.split(","))`);
any failure drops the token. -/
def parseLatLonToken (tok : List Char) : Option (ℚ × ℚ) :=
  match splitOnPred (· = ',') tok with
  | [a, b] =>
    match parseFloatChars a, parseFloatChars b with
    | some x, some y => some (x, y)
    | _, _ => none
  | _ => none

/-- The inner token loop of `_iter_polygons`: append each token that parses,
silently dropping the rest (`except (TypeError, ValueError): continue`). -/
def parseTokensLoop : List (List Char) → Polygon
  | [] => []
  | tok :: rest =>
    match parseLatLonToken tok with
    | some p => p :: parseTokensLoop rest
    | none => parseTokensLoop rest

/-- The entry loop of `_iter_polygons`: every string entry contributes one
polygon; entries of any other type are skipped (`isinstance(entry, str)`). -/
def processAreaEntries : List AreaVal → List Polygon
  | [] => []
  | .vStr s :: rest => parseTokensLoop (pySplitWs s.data) :: processAreaEntries rest
  | _ :: rest => processAreaEntries rest

/-- Model of `_iter_polygons(area)`: a falsy area yields no polygons; a list
is traversed entry-wise, any other value is wrapped in a singleton list
(`entries = area if isinstance(area, (list, tuple)) else [area]`). -/
def iterPolygons (area : AreaVal) : List Polygon :=
  if area.isFalsy then []
  else
    match area with
    | .vList l => processAreaEntries l
    | a => processAreaEntries [a]

/-! ### Epoch coercion (`_coerce_epoch_seconds`) -/

/-- Shape of a raw epoch-timestamp value: absent (`None`), a numeric value
(an int, float or numeric string — `float` succeeds), or a non-numeric
value on which `float` raises. -/
inductive EpochVal where
  | missing : EpochVal
  | nonNum : EpochVal
  | num : ℚ → EpochVal
deriving DecidableEq

/-- Model of `_coerce_epoch_seconds(value)`: `float(value)` (returning
`None` on `TypeError`/`ValueError`), then division by 1000 when the value
exceeds `1e12` (milliseconds detection). -/
def coerceEpochSeconds : EpochVal → Option ℚ
  | .missing => none
  | .nonNum => none
  | .num x => some (if x > 10 ^ 12 then x / 1000 else x)

/-! ### Geometry kernel

`_point_in_polygon` uses only ordered-field operations, so it is defined
generically over a `LinearOrderedField`; the evaluator instantiates it at
`ℝ` and the executable witnesses at `ℚ`.  The trigonometric functions
(`haversine`, `_distance_point_to_segment_m`) are defined over `ℝ`. -/

/-- The cyclic edge list of a polygon: `polygon[i]` paired with
`polygon[(i + 1) % n]`, in order. -/
def polyEdges {α : Type} (poly : List (α × α)) : List ((α × α) × (α × α)) :=
  poly.zip (poly.rotate 1)

/-- One iteration of the `_point_in_polygon` loop: a crossing edge whose
interpolated latitude exceeds the point's latitude flips the parity flag. -/
def pipStep {α : Type} [LinearOrderedField α] (lat lon : α) (inside : Bool)
    (e : (α × α) × (α × α)) : Bool :=
  if decide (e.1.2 > lon) ≠ decide (e.2.2 > lon) then
    let t := (lon - e.1.2) / (e.2.2 - e.1.2)
    if e.1.1 + t * (e.2.1 - e.1.1) > lat then !inside else inside
  else inside

/-- Model of `_point_in_polygon(lat, lon, polygon)`: even-odd ray casting
over the cyclic edges; fewer than 3 vertices is never inside. -/
def pointInPolygon {α : Type} [LinearOrderedField α] (lat lon : α)
    (poly : List (α × α)) : Bool :=
  if poly.length < 3 then false
  else (polyEdges poly).foldl (pipStep lat lon) false

/-- Division that records a zero denominator instead of defaulting to 0,
used to show the source's divisions can never divide by zero. -/
def checkedDiv {α : Type} [LinearOrderedField α] (a b : α) : Option α :=
  if b = 0 then none else some (a / b)

/-- The `pipStep` loop body with the division by `lon2 - lon1` checked. -/
def pipStepChecked {α : Type} [LinearOrderedField α] (lat lon : α)
    (acc : Option Bool) (e : (α × α) × (α × α)) : Option Bool :=
  acc.bind fun inside =>
    if decide (e.1.2 > lon) ≠ decide (e.2.2 > lon) then
      (checkedDiv (lon - e.1.2) (e.2.2 - e.1.2)).map fun t =>
        if e.1.1 + t * (e.2.1 - e.1.1) > lat then !inside else inside
    else some inside

/-- Variant of `pointInPolygon` with every division checked for a zero
denominator. -/
def pointInPolygonChecked {α : Type} [LinearOrderedField α] (lat lon : α)
    (poly : List (α × α)) : Option Bool :=
  if poly.length < 3 then some false
  else (polyEdges poly).foldl (pipStepChecked lat lon) (some false)

/-- Model of `math.radians`: degrees to radians. -/
noncomputable def radiansR (x : ℝ) : ℝ :=
  x * Real.pi / 180

/-- Model of `math.hypot`: Euclidean norm of a 2-vector. -/
noncomputable def hypotR (x y : ℝ) : ℝ :=
  Real.sqrt (x * x + y * y)

/-- Model of `math.atan2(y, x)` by the standard case analysis. -/
noncomputable def atan2R (y x : ℝ) : ℝ :=
  if 0 < x then Real.arctan (y / x)
  else if x < 0 ∧ 0 ≤ y then Real.arctan (y / x) + Real.pi
  else if x < 0 ∧ y < 0 then Real.arctan (y / x) - Real.pi
  else if x = 0 ∧ 0 < y then Real.pi / 2
  else if x = 0 ∧ y < 0 then -(Real.pi / 2)
  else 0

/-- Model of `haversine(lat1, lon1, lat2, lon2)`: great-circle distance in
meters with mean Earth radius 6371000 m, in the `atan2(sqrt a, sqrt (1-a))`
form used by the source. -/
noncomputable def haversine (lat1 lon1 lat2 lon2 : ℝ) : ℝ :=
  let f1 := radiansR lat1
  let f2 := radiansR lat2
  let dlat := radiansR (lat2 - lat1)
  let dlon := radiansR (lon2 - lon1)
  let a := Real.sin (dlat / 2) ^ 2 + Real.cos f1 * Real.cos f2 * Real.sin (dlon / 2) ^ 2
  6371000 * (2 * atan2R (Real.sqrt a) (Real.sqrt (1 - a)))

/-- Model of `_distance_point_to_segment_m`: distance from the point to the
segment `a`-`b` in a local equirectangular projection centered at the
point.  A zero-length projected segment is handled by the explicit
`denom == 0` branch, returning the distance to the shared endpoint. -/
noncomputable def distancePointToSegmentM (lat lon aLat aLon bLat bLon : ℝ) : ℝ :=
  let lat0 := radiansR lat
  let ax := radiansR (aLon - lon) * Real.cos lat0 * 6371000
  let ay := radiansR (aLat - lat) * 6371000
  let bx := radiansR (bLon - lon) * Real.cos lat0 * 6371000
  let by' := radiansR (bLat - lat) * 6371000
  let vx := bx - ax
  let vy := by' - ay
  let denom := vx * vx + vy * vy
  if denom = 0 then hypotR ax ay
  else
    let t := max 0 (min 1 (-(ax * vx + ay * vy) / denom))
    hypotR (ax + t * vx) (ay + t * vy)

/-- Variant of `_distance_point_to_segment_m` with the division by `denom`
checked. -/
noncomputable def distancePointToSegmentCheckedM (lat lon aLat aLon bLat bLon : ℝ) :
    Option ℝ :=
  let lat0 := radiansR lat
  let ax := radiansR (aLon - lon) * Real.cos lat0 * 6371000
  let ay := radiansR (aLat - lat) * 6371000
  let bx := radiansR (bLon - lon) * Real.cos lat0 * 6371000
  let by' := radiansR (bLat - lat) * 6371000
  let vx := bx - ax
  let vy := by' - ay
  let denom := vx * vx + vy * vy
  if denom = 0 then some (hypotR ax ay)
  else
    (checkedDiv (-(ax * vx + ay * vy)) denom).map fun q =>
      let t := max 0 (min 1 q)
      hypotR (ax + t * vx) (ay + t * vy)

/-- Model of `_min_distance_to_polygon_m`: `haversine` for a single vertex,
otherwise the minimum segment distance over the cyclic edges.  Python
returns `float('inf')` for an empty polygon; the evaluator never reaches
that case (empty polygons are skipped first), and the model returns 0
there. -/
noncomputable def minDistanceToPolygonM (lat lon : ℝ) : List (ℝ × ℝ) → ℝ
  | [] => 0
  | [p] => haversine lat lon p.1 p.2
  | p :: q :: rest =>
    let ds := (polyEdges (p :: q :: rest)).map fun e =>
      distancePointToSegmentM lat lon e.1.1 e.1.2 e.2.1 e.2.2
    match ds with
    | [] => 0
    | d :: ds' => ds'.foldl min d

/-! ### NL-Alert items, activity window and geofence evaluator -/

/-- A normalized NL-Alert feed item.  `start_at`/`stop_at` hold the result
of `_parse_datetime` on the raw fields: `none` models a missing, falsy or
unparseable bound (the external ISO-8601 parser returns `None` there), and
`some t` a parsed timezone-aware instant, modelled as a rational
timestamp. -/
structure NLItem where
  id : Option String
  message : Option String
  area : AreaVal
  start_at : Option ℚ
  stop_at : Option ℚ

/-- The `start` check of `_is_active`: `start and now < start`. -/
def startBlocks (start : Option ℚ) (now : ℚ) : Bool :=
  match start with
  | some s => decide (now < s)
  | none => false

/-- The `stop` check of `_is_active`: `stop and now >= stop`. -/
def stopBlocks (stop : Option ℚ) (now : ℚ) : Bool :=
  match stop with
  | some t => decide (t ≤ now)
  | none => false

/-- Model of `_is_active(item, now)`: inactive before a parsed `start_at`
and from a parsed `stop_at` on; open-ended where a bound is `none`. -/
def isActive (item : NLItem) (now : ℚ) : Bool :=
  if startBlocks item.start_at now then false
  else if stopBlocks item.stop_at now then false
  else true

/-- Cast a parsed polygon to `ℝ` coordinates for the geometry kernel. -/
def castPoly (poly : Polygon) : List (ℝ × ℝ) :=
  poly.map fun p => ((p.1 : ℝ), (p.2 : ℝ))

/-- The polygon loop of `_get_active_item` for one item: skip empty
polygons, then match on containment or proximity within `maxRadiusM`. -/
noncomputable def anyPolygonHit (lat0 lon0 maxRadiusM : ℝ) : List Polygon → Bool
  | [] => false
  | poly :: rest =>
    if poly.isEmpty then anyPolygonHit lat0 lon0 maxRadiusM rest
    else if pointInPolygon lat0 lon0 (castPoly poly) then true
    else if decide (minDistanceToPolygonM lat0 lon0 (castPoly poly) ≤ maxRadiusM) then true
    else anyPolygonHit lat0 lon0 maxRadiusM rest

/-- Model of `NLAlertSensor._get_active_item(items)`: the first active item
with a qualifying polygon, in input order. -/
noncomputable def getActiveItem (items : List NLItem) (lat0 lon0 maxRadiusM : ℝ)
    (now : ℚ) : Option NLItem :=
  match items with
  | [] => none
  | item :: rest =>
    if isActive item now then
      if anyPolygonHit lat0 lon0 maxRadiusM (iterPolygons item.area) then some item
      else getActiveItem rest lat0 lon0 maxRadiusM now
    else getActiveItem rest lat0 lon0 maxRadiusM now

/-- Model of `NLAlertSensor.state`: `"unsafe"` when `_get_active_item`
returns an item (a returned item always has a qualifying, hence truthy,
payload), else `"safe"`. -/
noncomputable def nlAlertState (items : List NLItem) (lat0 lon0 maxRadiusM : ℝ)
    (now : ℚ) : String :=
  if (getActiveItem items lat0 lon0 maxRadiusM now).isSome then "unsafe" else "safe"

/-! ### Missing-child feed (`AmberAlertSensor`) -/

/-- Raw `AlertLevel` field: absent, non-numeric (where `int` raises), or an
integer value. -/
inductive LevelVal where
  | missing : LevelVal
  | nonNum : LevelVal
  | num : Int → LevelVal

/-- Model of `int(alert.get("AlertLevel", 0))` with
`except (TypeError, ValueError): level = 0`. -/
def coerceLevel : LevelVal → Int
  | .missing => 0
  | .nonNum => 0
  | .num n => n

/-- The `Area` sub-dictionary of a missing-child record; the three fields
are carried through as metadata only. -/
structure AmberArea where
  description : Option String
  circle : Option String
  circleKM : Option String

/-- A raw record of the missing-child feed. -/
structure AmberRecord where
  state : Option String
  type : Option String
  alertLevel : LevelVal
  alertId : Option String
  scope : Option String
  area : Option AmberArea

/-- Shape of the missing-child coordinator payload: `None`
(`coordinator.data or []`), a non-list value (rejected by the
`isinstance(data, list)` check), or a list of records. -/
inductive AmberPayload where
  | null : AmberPayload
  | notList : AmberPayload
  | records : List AmberRecord → AmberPayload

/-- The record list the `_get_active_alerts` loop runs over. -/
def amberRecordsOf : AmberPayload → List AmberRecord
  | .null => []
  | .notList => []
  | .records l => l

/-- A normalized active alert as built by `_get_active_alerts`. -/
structure ActiveAlert where
  alert_id : Option String
  level : Int
  state : Option String
  type : Option String
  scope : Option String
  area_description : Option String
  circle : Option String
  circle_km : Option String

/-- The filter-and-normalize loop body of `_get_active_alerts`: keep records
with `State == "Actual"` and `Type in ("Alert", "Update")`. -/
def amberKeep (r : AmberRecord) : Bool :=
  decide (r.state = some "Actual") &&
    (decide (r.type = some "Alert") || decide (r.type = some "Update"))

/-- Build the normalized record (`area = alert.get("Area") or {}`). -/
def mkActiveAlert (r : AmberRecord) : ActiveAlert :=
  let a := r.area.getD ⟨none, none, none⟩
  { alert_id := r.alertId
    level := coerceLevel r.alertLevel
    state := r.state
    type := r.type
    scope := r.scope
    area_description := a.description
    circle := a.circle
    circle_km := a.circleKM }

/-- The loop of `_get_active_alerts` over a record list. -/
def buildActiveAlerts : List AmberRecord → List ActiveAlert
  | [] => []
  | r :: rest =>
    if amberKeep r then mkActiveAlert r :: buildActiveAlerts rest
    else buildActiveAlerts rest

/-- Model of `AmberAlertSensor._get_active_alerts`.  The sensor's resolved
reference coordinates and radius are fields of the class but are never read
here; they appear as parameters to make that visible. -/
def amberActiveAlerts (payload : AmberPayload) (lat0 lon0 maxRadiusM : ℝ) :
    List ActiveAlert :=
  buildActiveAlerts (amberRecordsOf payload)

/-- Model of `AmberAlertSensor.state`: `"unsafe"` iff any active alert has
level at least 5. -/
def amberState (payload : AmberPayload) (lat0 lon0 maxRadiusM : ℝ) : String :=
  if (amberActiveAlerts payload lat0 lon0 maxRadiusM).any (fun a => decide (5 ≤ a.level))
  then "unsafe" else "safe"

/-- The attribute payload of `AmberAlertSensor.extra_state_attributes`. -/
structure AmberAttrs where
  poster_url : String
  active_alerts_count : Nat
  highest_alert_level : Option Int
  active_alerts : List ActiveAlert

/-- Python `max(..., default=0)` over the active alert levels. -/
def amberHighestLevel (alerts : List ActiveAlert) : Int :=
  match alerts.map (·.level) with
  | [] => 0
  | x :: xs => xs.foldl max x

/-- Model of `AmberAlertSensor.extra_state_attributes`. -/
def amberAttributes (payload : AmberPayload) (lat0 lon0 maxRadiusM : ℝ) : AmberAttrs :=
  let active := amberActiveAlerts payload lat0 lon0 maxRadiusM
  let highest := amberHighestLevel active
  { poster_url := "https://www.burgernet.nl/static/posters/landelijk/1920x1080.jpg"
    active_alerts_count := active.length
    highest_alert_level := if highest > 0 then some highest else none
    active_alerts := active }

/-! ### Neighborhood-watch actions feed (Burgernet) -/

/-- A raw message of a Burgernet action.  `lastModifiedTimestamp` is absent
or numeric; the untyped sort key `m.get("lastModifiedTimestamp") or 0`
would raise in Python on a non-numeric value, so such payloads are outside
the model. -/
structure RawMessage where
  title : Option String
  body : Option String
  responseUrl : Option String
  messageType : Option String
  lastModifiedTimestamp : Option ℚ
  speechId : Option String

/-- The raw `area` dictionary of a Burgernet action. -/
structure RawArea where
  lat : Option ℚ
  lng : Option ℚ
  radius : Option ℚ

/-- A raw Burgernet action record.  `amberAlert` and `active` model the
truthiness of the raw fields (`bool(action.get(...))`). -/
structure RawAction where
  id : Option String
  municipality : Option String
  actionType : Option String
  amberAlert : Bool
  active : Bool
  startTimestamp : EpochVal
  endTimestamp : EpochVal
  area : Option RawArea
  messages : Option (List RawMessage)

/-- Model of `_coerce_epoch_seconds` applied to an absent-or-numeric field. -/
def coerceEpochOpt (v : Option ℚ) : Option ℚ :=
  coerceEpochSeconds (match v with | none => .missing | some x => .num x)

/-- Model of `_format_epoch(value)`: coerce to epoch seconds, then render
through the external local-ISO formatter `fmt`
(`dt_util.as_local(dt_util.utc_from_timestamp(ts)).isoformat()`). -/
def formatEpoch (fmt : ℚ → String) (v : EpochVal) : Option String :=
  (coerceEpochSeconds v).map fmt

/-- Model of `_format_epoch` on an absent-or-numeric message timestamp. -/
def formatEpochOpt (fmt : ℚ → String) (v : Option ℚ) : Option String :=
  (coerceEpochOpt v).map fmt

/-- A message as prepared by `_prepare_burgernet_message`. -/
structure PreparedMessage where
  title : Option String
  body : Option String
  response_url : Option String
  message_type : Option String
  last_modified : Option String
  speech_id : Option String

/-- Model of `_prepare_burgernet_message(msg)`. -/
def prepareBurgernetMessage (fmt : ℚ → String) (m : RawMessage) : PreparedMessage :=
  { title := m.title
    body := m.body
    response_url := m.responseUrl
    message_type := m.messageType
    last_modified := formatEpochOpt fmt m.lastModifiedTimestamp
    speech_id := m.speechId }

/-- The sort key `m.get("lastModifiedTimestamp") or 0` of the message
sort. -/
def msgSortKey (m : RawMessage) : ℚ :=
  m.lastModifiedTimestamp.getD 0

/-- Model of `sorted(messages, key=...)`: Python's sort is stable, so it is modelled
by stable insertion sort ascending on the key. -/
def sortedRawMessages (msgs : List RawMessage) : List RawMessage :=
  List.insertionSort (fun m1 m2 => msgSortKey m1 ≤ msgSortKey m2) msgs

/-- The prepared `area` sub-dictionary of a Burgernet action, including the
computed distance from the reference point. -/
structure PreparedArea where
  lat : ℚ
  lng : ℚ
  radius : Option ℚ
  distance_m : ℝ

/-- An action as prepared by `_prepare_burgernet_action`. -/
structure PreparedAction where
  id : Option String
  municipality : Option String
  action_type : Option String
  amber_alert : Bool
  active : Bool
  start_ts : Option ℚ
  end_ts : Option ℚ
  start : Option String
  stop : Option String
  latest_message : Option String
  latest_message_type : Option String
  latest_message_time : Option String
  messages : List PreparedMessage
  conversation : String
  area : PreparedArea

/-- Lines 590–598 of the source: `latest.get("body") or latest.get("title")`,
with ` (case closed)` appended when the action is closed and the text is
truthy. -/
def latestMessageText (active : Bool) (sortedMsgs : List RawMessage) : Option String :=
  match sortedMsgs.getLast? with
  | none => none
  | some latest =>
    match pyOrStr latest.body latest.title with
    | none => none
    | some t => if active = false ∧ t ≠ "" then some (t ++ " (case closed)") else some t

/-- The `latest.get("messageType")` field of the latest message, when
present. -/
def latestMessageType (sortedMsgs : List RawMessage) : Option String :=
  sortedMsgs.getLast?.bind (·.messageType)

/-- The value `_format_epoch(latest.get("lastModifiedTimestamp"))`, when
present. -/
def latestMessageTime (fmt : ℚ → String) (sortedMsgs : List RawMessage) : Option String :=
  sortedMsgs.getLast?.bind fun m => formatEpochOpt fmt m.lastModifiedTimestamp

/-- One conversation line per message:
`"{ts_label} | {message_type}: {body-or-title}"`, with absent pieces
omitted and the colon omitted when there is no label at all. -/
def conversationMsgLine (fmt : ℚ → String) (m : RawMessage) : String :=
  let bits := [formatEpochOpt fmt m.lastModifiedTimestamp, m.messageType]
  let pfx := String.intercalate " | " ((bits.filterMap id).filter (· ≠ ""))
  let body := (pyOrStr m.body m.title).getD ""
  if pfx ≠ "" then pfx ++ ": " ++ body else body

/-- The `conversation_lines` construction of `_prepare_burgernet_action`:
status line, optional municipality line, area line, one line per message,
and a closing line for inactive actions; empty lines are dropped by the
final `"\n".join`. -/
def conversationOf (fmt : ℚ → String) (a : RawAction) (clat clng : ℚ)
    (radius : Option ℚ) (sortedMsgs : List RawMessage) : String :=
  let statusLine := "Status: " ++ (if a.active then "active" else "closed")
  let muniLines :=
    if pyTruthyStr a.municipality then ["Municipality: " ++ a.municipality.getD ""] else []
  let areaLine :=
    "Area: lat " ++ toString clat ++ ", lng " ++ toString clng ++ ", radius " ++
      (match radius with | some r => toString r | none => "None") ++ " m"
  let msgLines := sortedMsgs.map (conversationMsgLine fmt)
  let closing := if a.active then [] else ["Case closed."]
  String.intercalate "\n"
    (((statusLine :: muniLines) ++ [areaLine] ++ msgLines ++ closing).filter (· ≠ ""))

/-- Model of `_prepare_burgernet_action(action, lat0, lon0, max_radius_m)`:
`None` when the center is missing or (when a radius is configured) the
center is farther than the radius; otherwise the prepared record. -/
noncomputable def prepareBurgernetAction (a : RawAction) (lat0 lon0 : ℝ)
    (maxRadiusM : Option ℝ) (fmt : ℚ → String) : Option PreparedAction :=
  let area := a.area.getD ⟨none, none, none⟩
  match area.lat, area.lng with
  | some clat, some clng =>
    let distM : ℝ := haversine lat0 lon0 (clat : ℝ) (clng : ℝ)
    if (match maxRadiusM with
        | some r => decide (distM > r)
        | none => false) then none
    else
      let sortedMsgs := sortedRawMessages (a.messages.getD [])
      some
        { id := a.id
          municipality := a.municipality
          action_type := a.actionType
          amber_alert := a.amberAlert
          active := a.active
          start_ts := coerceEpochSeconds a.startTimestamp
          end_ts := coerceEpochSeconds a.endTimestamp
          start := formatEpoch fmt a.startTimestamp
          stop := formatEpoch fmt a.endTimestamp
          latest_message := latestMessageText a.active sortedMsgs
          latest_message_type := latestMessageType sortedMsgs
          latest_message_time := latestMessageTime fmt sortedMsgs
          messages := sortedMsgs.map (prepareBurgernetMessage fmt)
          conversation := conversationOf fmt a clat clng area.radius sortedMsgs
          area := ⟨clat, clng, area.radius, distM⟩ }
  | _, _ => none

/-- Shape of the Burgernet coordinator payload for
`_extract_burgernet_actions`: a dict whose `actions` key holds a list
(`dict (some l)`), a dict without a usable `actions` list (`dict none`),
a bare list, or anything else. -/
inductive BurgernetPayload where
  | dict : Option (List RawAction) → BurgernetPayload
  | list : List RawAction → BurgernetPayload
  | other : BurgernetPayload

/-- Model of `_extract_burgernet_actions(payload)`. -/
def extractBurgernetActions : BurgernetPayload → List RawAction
  | .dict (some l) => l
  | .dict none => []
  | .list l => l
  | .other => []

/-- The collection loop of `_prepare_burgernet_actions`: keep the prepared
records, dropping the `None` results. -/
noncomputable def collectPreparedActions (lat0 lon0 : ℝ) (maxRadiusM : Option ℝ)
    (fmt : ℚ → String) : List RawAction → List PreparedAction
  | [] => []
  | a :: rest =>
    match prepareBurgernetAction a lat0 lon0 maxRadiusM fmt with
    | some p => p :: collectPreparedActions lat0 lon0 maxRadiusM fmt rest
    | none => collectPreparedActions lat0 lon0 maxRadiusM fmt rest

/-- The sort key `a.get("start_ts") or 0` of the action sort. -/
def actionSortKey (p : PreparedAction) : ℚ :=
  p.start_ts.getD 0

/-- The comparison of `actions.sort(key=..., reverse=True)`: descending by
start key; Python's stable sort is modelled by stable insertion sort. -/
def actionDescOrder (p q : PreparedAction) : Prop :=
  actionSortKey q ≤ actionSortKey p

instance : DecidableRel actionDescOrder :=
  fun p q => inferInstanceAs (Decidable (actionSortKey q ≤ actionSortKey p))

/-- Model of `_prepare_burgernet_actions(payload, lat0, lon0, max_radius_m)`:
extract, prepare-and-filter, then sort by start time descending. -/
noncomputable def prepareBurgernetActions (payload : BurgernetPayload) (lat0 lon0 : ℝ)
    (maxRadiusM : Option ℝ) (fmt : ℚ → String) : List PreparedAction :=
  List.insertionSort actionDescOrder
    (collectPreparedActions lat0 lon0 maxRadiusM fmt (extractBurgernetActions payload))

/-! ### Concrete demonstration data -/

/-- A fixed stand-in for the external local-ISO timestamp formatter. -/
def demoFmt : ℚ → String := fun _ => "1970-01-01T01:00:00+01:00"

/-- A Burgernet action with the given id, start timestamp, active flag and
messages, centered at `(52, 4)` with no radius. -/
def mkDemoAction (idv : Option String) (ts : EpochVal) (act : Bool)
    (msgs : List RawMessage) : RawAction :=
  { id := idv
    municipality := none
    actionType := none
    amberAlert := false
    active := act
    startTimestamp := ts
    endTimestamp := .missing
    area := some ⟨some 52, some 4, none⟩
    messages := some msgs }

/-- Payload with start timestamps 100, 300, 200 and one missing. -/
def demoSortPayload : BurgernetPayload :=
  .list
    [mkDemoAction (some "a100") (.num 100) true [],
     mkDemoAction (some "b300") (.num 300) true [],
     mkDemoAction (some "c200") (.num 200) true [],
     mkDemoAction (some "dmiss") .missing true []]

/-- A message whose body is set and whose title is absent. -/
def demoMsg : RawMessage :=
  { title := none
    body := some "Seen near park"
    responseUrl := none
    messageType := none
    lastModifiedTimestamp := some 100
    speechId := none }

/-- A closed (inactive) action carrying one message. -/
def demoClosedAction : RawAction := mkDemoAction (some "x") (.num 100) false [demoMsg]

/-- A triangle used to demonstrate the bounding-box properties. -/
def demoTriangle : List (ℚ × ℚ) := [(0, 0), (0, 2), (2, 1)]

/-! ### Supporting lemmas -/

/-- The token loop keeps, in order, exactly the tokens that parse. -/
theorem parseTokensLoop_eq_filterMap (toks : List (List Char)) :
    parseTokensLoop toks = toks.filterMap parseLatLonToken := by
  induction toks with
  | nil => rfl
  | cons t rest ih =>
    cases h : parseLatLonToken t <;> simp [parseTokensLoop, h, ih]

/-- The entry loop yields one polygon per string entry, in order. -/
theorem processAreaEntries_eq_filterMap (entries : List AreaVal) :
    processAreaEntries entries =
      entries.filterMap fun e =>
        match e with
        | AreaVal.vStr s => some (parseTokensLoop (pySplitWs s.data))
        | _ => none := by
  induction entries with
  | nil => rfl
  | cons e rest ih =>
    cases e <;> simp [processAreaEntries, ih]

/-- C4 counterexample: for the bare empty input string the parser yields
zero polygons, not one empty polygon — `if not area` short-circuits before
any polygon is built. -/
theorem iterPolygons_emptyString_counterexample :
    iterPolygons (AreaVal.vStr "") = [] ∧
    iterPolygons (AreaVal.vStr "") ≠ [([] : Polygon)] := by
  constructor
  · rfl
  · simp [iterPolygons, AreaVal.isFalsy]

/-- C4 (amended): each *string entry of a list* yields exactly one polygon
keeping, in order, exactly the whitespace-separated tokens that split on
`,` into exactly two float-parseable parts; a bare non-empty string yields
one such polygon; a bare empty string (falsy area), an absent area, and a
truthy non-string non-list area yield zero polygons; the concrete example
drops `bad_token` and yields the 3-vertex polygon. -/
theorem iterPolygons_spec :
    (∀ s : String, iterPolygons (.vStr s) =
      if s = "" then [] else [(pySplitWs s.data).filterMap parseLatLonToken]) ∧
    (∀ entries : List AreaVal, iterPolygons (.vList entries) =
      entries.filterMap fun e =>
        match e with
        | AreaVal.vStr s => some ((pySplitWs s.data).filterMap parseLatLonToken)
        | _ => none) ∧
    iterPolygons .vNone = [] ∧
    iterPolygons .vOther = [] ∧
    iterPolygons (.vStr "52.1,4.3 52.2,4.4 bad_token 52.3,4.5") =
      [[(521/10, 43/10), (261/5, 22/5), (523/10, 9/2)]] := by
  refine ⟨?_, ?_, rfl, rfl, ?_⟩
  · intro s
    by_cases h : s = ""
    · simp [iterPolygons, AreaVal.isFalsy, h]
    · simp [iterPolygons, AreaVal.isFalsy, h, processAreaEntries,
        parseTokensLoop_eq_filterMap]
  · intro entries
    by_cases h : entries = []
    · simp [iterPolygons, AreaVal.isFalsy, h]
    · have : (AreaVal.vList entries).isFalsy = false := by
        simp [AreaVal.isFalsy, h]
      simp [iterPolygons, this, processAreaEntries_eq_filterMap,
        parseTokensLoop_eq_filterMap]
  · have h : iterPolygons (.vStr "52.1,4.3 52.2,4.4 bad_token 52.3,4.5") =
        parseTokensLoop (pySplitWs ("52.1,4.3 52.2,4.4 bad_token 52.3,4.5").data) :: [] := rfl
    rw [h]
    simp +decide [pySplitWs, splitOnPred, splitOnPredAux, parseTokensLoop, parseLatLonToken,
      parseFloatChars, parseUnsignedFloat, finishMantissa, applyExponent, digitsVal, natDigitsVal]
    norm_num

/-- C5: epoch coercion returns the value as seconds when it is at most
`1e12`, divides by 1000 when it exceeds `1e12`, returns `None` on missing
or non-numeric input, and the example second/millisecond values coerce to
the same instant. -/
theorem coerceEpochSeconds_spec :
    (∀ x : ℚ, x ≤ 10 ^ 12 → coerceEpochSeconds (.num x) = some x) ∧
    (∀ x : ℚ, 10 ^ 12 < x → coerceEpochSeconds (.num x) = some (x / 1000)) ∧
    coerceEpochSeconds .missing = none ∧
    coerceEpochSeconds .nonNum = none ∧
    coerceEpochSeconds (.num 1700000000) = coerceEpochSeconds (.num 1700000000000) ∧
    coerceEpochSeconds (.num 1700000000000) = some 1700000000 := by
  refine ⟨?_, ?_, rfl, rfl, ?_, ?_⟩
  · intro x hx
    simp [coerceEpochSeconds, not_lt.mpr hx]
  · intro x hx
    simp [coerceEpochSeconds, hx]
  · norm_num [coerceEpochSeconds]
  · norm_num [coerceEpochSeconds]

/-- C5 witness: the two branch hypotheses hold at the example inputs and
the theorem computes the corresponding outputs. -/
theorem coerceEpochSeconds_spec_witness :
    ((1700000000 : ℚ) ≤ 10 ^ 12 ∧
      coerceEpochSeconds (.num 1700000000) = some 1700000000) ∧
    ((10 ^ 12 : ℚ) < 1700000000000 ∧
      coerceEpochSeconds (.num 1700000000000) = some (1700000000000 / 1000)) :=
  ⟨⟨by norm_num, coerceEpochSeconds_spec.1 1700000000 (by norm_num)⟩,
   ⟨by norm_num, coerceEpochSeconds_spec.2.1 1700000000000 (by norm_num)⟩⟩

/-- C2: the activity window is half-open — an item is active at `now` iff
`now` is at or after any parsed start and strictly before any parsed stop;
a missing or unparseable bound (modelled `none`) imposes no constraint, and
an item is inactive at its exact stop instant. -/
theorem isActive_spec :
    (∀ (item : NLItem) (now : ℚ),
      isActive item now = true ↔
        (∀ s, item.start_at = some s → s ≤ now) ∧
        (∀ t, item.stop_at = some t → now < t)) ∧
    (∀ (idv msgv : Option String) (av : AreaVal) (sv : Option ℚ) (now : ℚ),
      isActive ⟨idv, msgv, av, sv, some now⟩ now = false) := by
  constructor
  · intro item now
    cases hs : item.start_at <;> cases ht : item.stop_at <;>
      simp [isActive, startBlocks, stopBlocks, hs, ht, not_lt, not_le]
  · intro idv msgv av sv now
    simp [isActive, stopBlocks]

/-- C2 witness: a concrete item with a start in the past and stop in the
future is active, and an item whose stop equals `now` is inactive. -/
theorem isActive_spec_witness :
    isActive ⟨none, none, AreaVal.vNone, some 1, some 5⟩ 3 = true ∧
    isActive ⟨none, none, AreaVal.vNone, none, some 5⟩ 5 = false :=
  ⟨(isActive_spec.1 ⟨none, none, AreaVal.vNone, some 1, some 5⟩ 3).mpr
      ⟨by simp +decide, by simp +decide⟩,
   isActive_spec.2 none none AreaVal.vNone none 5⟩

/-- The record filter of `_get_active_alerts`, spelled out. -/
theorem amberKeep_iff (r : AmberRecord) :
    amberKeep r = true ↔
      r.state = some "Actual" ∧ (r.type = some "Alert" ∨ r.type = some "Update") := by
  simp [amberKeep]

/-- Some active alert reaches level 5 iff some qualifying raw record does. -/
theorem buildActiveAlerts_any_iff (l : List AmberRecord) :
    ((buildActiveAlerts l).any fun a => decide (5 ≤ a.level)) = true ↔
      ∃ r ∈ l, amberKeep r = true ∧ 5 ≤ coerceLevel r.alertLevel := by
  induction l with
  | nil => simp [buildActiveAlerts]
  | cons r rest ih =>
    by_cases h : amberKeep r = true
    · simp [buildActiveAlerts, h, ih, mkActiveAlert]
    · simp only [buildActiveAlerts, if_neg h, ih]
      constructor
      · rintro ⟨x, hx, hk⟩
        exact ⟨x, List.mem_cons_of_mem r hx, hk⟩
      · rintro ⟨x, hx, hk, hl⟩
        rcases List.mem_cons.mp hx with rfl | hx'
        · exact absurd hk h
        · exact ⟨x, hx', hk, hl⟩

/-- The sensor state is `"unsafe"` exactly when the level-5 test fires. -/
theorem amberState_unsafe_iff (p : AmberPayload) (lat0 lon0 maxR : ℝ) :
    amberState p lat0 lon0 maxR = "unsafe" ↔
      ((buildActiveAlerts (amberRecordsOf p)).any fun a => decide (5 ≤ a.level)) = true := by
  unfold amberState amberActiveAlerts
  split_ifs with h <;> simp [h]

/-- C3: the missing-child verdict is `"unsafe"` iff some record has
`State = "Actual"`, `Type` in `{"Alert","Update"}` and integer-coerced
`AlertLevel` at least 5 (defaulting to 0 on missing or non-numeric), else
`"safe"`; one qualifying record at level 5 yields `"unsafe"`, at level 4
`"safe"`. -/
theorem amberState_spec :
    (∀ (p : AmberPayload) (lat0 lon0 maxR : ℝ),
      (amberState p lat0 lon0 maxR = "unsafe" ↔
        ∃ r ∈ amberRecordsOf p, r.state = some "Actual" ∧
          (r.type = some "Alert" ∨ r.type = some "Update") ∧
          5 ≤ coerceLevel r.alertLevel) ∧
      (amberState p lat0 lon0 maxR = "safe" ↔
        ¬ ∃ r ∈ amberRecordsOf p, r.state = some "Actual" ∧
          (r.type = some "Alert" ∨ r.type = some "Update") ∧
          5 ≤ coerceLevel r.alertLevel)) ∧
    amberState (.records [⟨some "Actual", some "Alert", .num 5, none, none, none⟩]) 0 0 0
      = "unsafe" ∧
    amberState (.records [⟨some "Actual", some "Alert", .num 4, none, none, none⟩]) 0 0 0
      = "safe" := by
  refine ⟨?_, by rfl, by rfl⟩
  intro p lat0 lon0 maxR
  have key := (amberState_unsafe_iff p lat0 lon0 maxR).trans
    (buildActiveAlerts_any_iff (amberRecordsOf p))
  simp only [amberKeep_iff, and_assoc] at key
  refine ⟨key, ?_⟩
  constructor
  · intro hsafe
    rw [← key]
    intro huns
    rw [huns] at hsafe
    exact absurd hsafe (by decide)
  · intro hno
    have : ¬ amberState p lat0 lon0 maxR = "unsafe" := fun h => hno (key.mp h)
    unfold amberState at this ⊢
    split_ifs at this ⊢ with h
    · exact absurd rfl this
    · rfl

/-- C3 witness: the characterization instantiated at the level-5 example
payload, with the existence side exhibited concretely. -/
theorem amberState_spec_witness :
    amberState (.records [⟨some "Actual", some "Alert", .num 5, none, none, none⟩]) 1 2 3
      = "unsafe" :=
  ((amberState_spec.1 (.records [⟨some "Actual", some "Alert", .num 5, none, none, none⟩])
      1 2 3).1).mpr
    ⟨⟨some "Actual", some "Alert", .num 5, none, none, none⟩, by simp [amberRecordsOf],
      rfl, Or.inl rfl, by decide⟩

/-- C9: the missing-child verdict and attribute payload are independent of
the reference location and radius — the sensor never reads them. -/
theorem amber_location_independent :
    ∀ (p : AmberPayload) (lat1 lon1 r1 lat2 lon2 r2 : ℝ),
      amberState p lat1 lon1 r1 = amberState p lat2 lon2 r2 ∧
      amberAttributes p lat1 lon1 r1 = amberAttributes p lat2 lon2 r2 :=
  fun _ _ _ _ _ _ _ => ⟨rfl, rfl⟩

/-- C9 witness: the independence theorem instantiated at a concrete payload
and two different locations and radii. -/
theorem amber_location_independent_witness :
    amberState (.records [⟨some "Actual", some "Update", .num 7, none, none, none⟩]) 0 0 0
      = amberState (.records [⟨some "Actual", some "Update", .num 7, none, none, none⟩]) 52 4 5000 :=
  (amber_location_independent
    (.records [⟨some "Actual", some "Update", .num 7, none, none, none⟩]) 0 0 0 52 4 5000).1

/-- Both endpoints of an edge of `polyEdges poly` are vertices of `poly`. -/
theorem polyEdges_mem {α : Type} {poly : List (α × α)} {e : (α × α) × (α × α)}
    (he : e ∈ polyEdges poly) : e.1 ∈ poly ∧ e.2 ∈ poly := by
  obtain ⟨e1, e2⟩ := e
  have h2 := List.of_mem_zip he
  exact ⟨h2.1, List.mem_rotate.mp h2.2⟩

/-- A fold whose step fixes every list element fixes the accumulator. -/
theorem foldl_id_of_step_id {β : Type} {f : Bool → β → Bool} {l : List β}
    (h : ∀ e ∈ l, ∀ b, f b e = b) (b : Bool) : l.foldl f b = b := by
  induction l generalizing b with
  | nil => rfl
  | cons e rest ih =>
    rw [List.foldl_cons, h e (List.mem_cons_self e rest)]
    exact ih (fun e' he' b' => h e' (List.mem_cons_of_mem e he') b') b

/-- An edge with both longitudes strictly beyond the point is no crossing. -/
theorem pipStep_id_of_both_gt {α : Type} [LinearOrderedField α] {lat lon : α}
    {e : (α × α) × (α × α)} (h1 : lon < e.1.2) (h2 : lon < e.2.2) (b : Bool) :
    pipStep lat lon b e = b := by
  simp [pipStep, h1, h2]

/-- An edge with both longitudes at or below the point is no crossing. -/
theorem pipStep_id_of_both_le {α : Type} [LinearOrderedField α] {lat lon : α}
    {e : (α × α) × (α × α)} (h1 : ¬ lon < e.1.2) (h2 : ¬ lon < e.2.2) (b : Bool) :
    pipStep lat lon b e = b := by
  simp [pipStep, h1, h2]

/-- A crossing edge whose endpoints both lie at or below the point's
latitude never flips the flag: the interpolation parameter lies in `[0,1]`,
so the interpolated latitude cannot exceed the point's latitude. -/
theorem pipStep_id_of_lat_le {α : Type} [LinearOrderedField α] {lat lon : α}
    {e : (α × α) × (α × α)} (h1 : e.1.1 ≤ lat) (h2 : e.2.1 ≤ lat) (b : Bool) :
    pipStep lat lon b e = b := by
  unfold pipStep
  by_cases hc : decide (e.1.2 > lon) ≠ decide (e.2.2 > lon)
  · rw [if_pos hc]
    have ht : 0 ≤ (lon - e.1.2) / (e.2.2 - e.1.2) ∧ (lon - e.1.2) / (e.2.2 - e.1.2) ≤ 1 := by
      by_cases hl1 : lon < e.1.2
      · have hl2 : ¬ lon < e.2.2 := by
          intro h
          exact hc (by simp [hl1, h])
      
        have hden : e.2.2 - e.1.2 < 0 := by
          have := not_lt.mp hl2
          linarith
        constructor
        · rw [div_nonneg_iff]
          right
          constructor <;> linarith
        · rw [div_le_one_iff]
          right; right
          have := not_lt.mp hl2
          constructor
          · exact hden
          · linarith
      · have hl2 : lon < e.2.2 := by
          by_contra h
          exact hc (by simp [hl1, h])
        have hden : 0 < e.2.2 - e.1.2 := by
          have := not_lt.mp hl1
          linarith
        constructor
        · apply div_nonneg _ (le_of_lt hden)
          have := not_lt.mp hl1
          linarith
        · rw [div_le_one hden]
          have := not_lt.mp hl1
          linarith
    have hinterp : ¬ (lat < e.1.1 + (lon - e.1.2) / (e.2.2 - e.1.2) * (e.2.1 - e.1.1)) := by
      set t := (lon - e.1.2) / (e.2.2 - e.1.2) with hdef
      have key : e.1.1 + t * (e.2.1 - e.1.1) - lat
          = (1 - t) * (e.1.1 - lat) + t * (e.2.1 - lat) := by ring
      have k1 : (1 - t) * (e.1.1 - lat) ≤ 0 :=
        mul_nonpos_iff.mpr (Or.inl ⟨by linarith [ht.2], by linarith⟩)
      have k2 : t * (e.2.1 - lat) ≤ 0 :=
        mul_nonpos_iff.mpr (Or.inl ⟨ht.1, by linarith⟩)
      intro hlt
      have : 0 < e.1.1 + t * (e.2.1 - e.1.1) - lat := by linarith
      rw [key] at this
      linarith
    simp only [gt_iff_lt, if_neg hinterp]
  · rw [if_neg hc]

/-- C7: the point-in-polygon test is false for every polygon with fewer
than 3 vertices, and false whenever the point's longitude is strictly less
than every vertex longitude, strictly greater than every vertex longitude,
or its latitude is at or above every vertex latitude. -/
theorem pointInPolygon_bbox {α : Type} [LinearOrderedField α] (lat lon : α)
    (poly : List (α × α)) :
    (poly.length < 3 → pointInPolygon lat lon poly = false) ∧
    ((∀ p ∈ poly, lon < p.2) → pointInPolygon lat lon poly = false) ∧
    ((∀ p ∈ poly, p.2 < lon) → pointInPolygon lat lon poly = false) ∧
    ((∀ p ∈ poly, p.1 ≤ lat) → pointInPolygon lat lon poly = false) := by
  refine ⟨fun h => by simp [pointInPolygon, h], ?_, ?_, ?_⟩
  all_goals intro hall
  all_goals unfold pointInPolygon
  all_goals split_ifs with hlen
  any_goals rfl
  all_goals apply foldl_id_of_step_id
  all_goals intro e he b
  all_goals have hmem := polyEdges_mem he
  · exact pipStep_id_of_both_gt (hall e.1 hmem.1) (hall e.2 hmem.2) b
  · exact pipStep_id_of_both_le (lt_asymm (hall e.1 hmem.1)) (lt_asymm (hall e.2 hmem.2)) b
  · exact pipStep_id_of_lat_le (hall e.1 hmem.1) (hall e.2 hmem.2) b

/-- C7 witness: the four hypotheses hold and yield a false test at
concrete inputs — a 2-vertex polygon, and a triangle with the point west
of, east of, and above its bounding box. -/
theorem pointInPolygon_bbox_witness :
    (([((0 : ℚ), 0), (0, 2)] : List (ℚ × ℚ)).length < 3 ∧
      pointInPolygon (1 : ℚ) 1 [((0 : ℚ), 0), (0, 2)] = false) ∧
    ((∀ p ∈ ([((0 : ℚ), 0), (0, 2), (2, 1)] : List (ℚ × ℚ)), (-5 : ℚ) < p.2) ∧
      pointInPolygon (1 : ℚ) (-5) [((0 : ℚ), 0), (0, 2), (2, 1)] = false) ∧
    ((∀ p ∈ ([((0 : ℚ), 0), (0, 2), (2, 1)] : List (ℚ × ℚ)), p.2 < (5 : ℚ)) ∧
      pointInPolygon (1 : ℚ) 5 [((0 : ℚ), 0), (0, 2), (2, 1)] = false) ∧
    ((∀ p ∈ ([((0 : ℚ), 0), (0, 2), (2, 1)] : List (ℚ × ℚ)), p.1 ≤ (5 : ℚ)) ∧
      pointInPolygon (5 : ℚ) 1 [((0 : ℚ), 0), (0, 2), (2, 1)] = false) :=
  ⟨⟨by decide, (pointInPolygon_bbox (1 : ℚ) 1 [((0 : ℚ), 0), (0, 2)]).1 (by decide)⟩,
   ⟨by decide, (pointInPolygon_bbox (1 : ℚ) (-5) [((0 : ℚ), 0), (0, 2), (2, 1)]).2.1
      (by decide)⟩,
   ⟨by decide, (pointInPolygon_bbox (1 : ℚ) 5 [((0 : ℚ), 0), (0, 2), (2, 1)]).2.2.1
      (by decide)⟩,
   ⟨by decide, (pointInPolygon_bbox (5 : ℚ) 1 [((0 : ℚ), 0), (0, 2), (2, 1)]).2.2.2
      (by decide)⟩⟩

/-- A crossing edge has distinct endpoint longitudes, so the checked loop
body never records a zero denominator. -/
theorem pipStepChecked_eq {α : Type} [LinearOrderedField α] (lat lon : α) (b : Bool)
    (e : (α × α) × (α × α)) :
    pipStepChecked lat lon (some b) e = some (pipStep lat lon b e) := by
  have hb : ∀ (x : Bool) (f : Bool → Option Bool), (some x).bind f = f x := fun _ _ => rfl
  unfold pipStepChecked pipStep
  rw [hb]
  by_cases hc : decide (e.1.2 > lon) ≠ decide (e.2.2 > lon)
  · have hne : e.2.2 - e.1.2 ≠ 0 := by
      intro h0
      have heq : e.2.2 = e.1.2 := by linarith [sub_eq_zero.mp h0]
      exact hc (by rw [heq])
    rw [if_pos hc, if_pos hc]
    simp only [checkedDiv, if_neg hne, Option.map_some']
  · rw [if_neg hc, if_neg hc]

/-- The checked fold tracks the plain fold. -/
theorem foldl_pipStepChecked_eq {α : Type} [LinearOrderedField α] (lat lon : α)
    (l : List ((α × α) × (α × α))) :
    ∀ b : Bool, l.foldl (pipStepChecked lat lon) (some b)
      = some (l.foldl (pipStep lat lon) b) := by
  induction l with
  | nil => intro b; rfl
  | cons e rest ih =>
    intro b
    rw [List.foldl_cons, List.foldl_cons, pipStepChecked_eq]
    exact ih (pipStep lat lon b e)

/-- C8: neither geometry-kernel division can divide by zero — the
ray-casting division by `lon2 - lon1` only occurs on a crossing edge, which
forces distinct longitudes, and the segment-distance division by the
squared segment length sits behind the explicit `denom == 0` branch; the
checked variants therefore agree with the direct functions everywhere. -/
theorem geometryDivisionsNeverZero :
    (∀ (lat lon : ℝ) (poly : List (ℝ × ℝ)),
      pointInPolygonChecked lat lon poly = some (pointInPolygon lat lon poly)) ∧
    (∀ lat lon aLat aLon bLat bLon : ℝ,
      distancePointToSegmentCheckedM lat lon aLat aLon bLat bLon
        = some (distancePointToSegmentM lat lon aLat aLon bLat bLon)) := by
  constructor
  · intro lat lon poly
    unfold pointInPolygonChecked pointInPolygon
    split_ifs with h
    · rfl
    · exact foldl_pipStepChecked_eq lat lon (polyEdges poly) false
  · intro lat lon aLat aLon bLat bLon
    unfold distancePointToSegmentCheckedM distancePointToSegmentM
    by_cases hd :
        (radiansR (bLon - lon) * Real.cos (radiansR lat) * 6371000
            - radiansR (aLon - lon) * Real.cos (radiansR lat) * 6371000)
          * (radiansR (bLon - lon) * Real.cos (radiansR lat) * 6371000
            - radiansR (aLon - lon) * Real.cos (radiansR lat) * 6371000)
          + (radiansR (bLat - lat) * 6371000 - radiansR (aLat - lat) * 6371000)
          * (radiansR (bLat - lat) * 6371000 - radiansR (aLat - lat) * 6371000) = 0 <;>
      simp only [hd, if_pos, if_neg, checkedDiv, Option.map_some'] <;>
      simp [checkedDiv, hd]

/-- C8 witness: the checked-equals-direct equations instantiated at
concrete inputs. -/
theorem geometryDivisionsNeverZero_witness :
    pointInPolygonChecked (0 : ℝ) 0 [] = some (pointInPolygon (0 : ℝ) 0 []) ∧
    distancePointToSegmentCheckedM 0 0 0 0 1 1
      = some (distancePointToSegmentM 0 0 0 0 1 1) :=
  ⟨geometryDivisionsNeverZero.1 0 0 [], geometryDivisionsNeverZero.2 0 0 0 0 1 1⟩

/-- The polygon loop hits iff some non-empty polygon contains the point or
lies within the radius. -/
theorem anyPolygonHit_iff (lat0 lon0 maxR : ℝ) (polys : List Polygon) :
    anyPolygonHit lat0 lon0 maxR polys = true ↔
      ∃ poly ∈ polys, poly ≠ [] ∧
        (pointInPolygon lat0 lon0 (castPoly poly) = true ∨
          minDistanceToPolygonM lat0 lon0 (castPoly poly) ≤ maxR) := by
  induction polys with
  | nil => simp [anyPolygonHit]
  | cons poly rest ih =>
    unfold anyPolygonHit
    by_cases h0 : poly.isEmpty
    · rw [if_pos h0, ih]
      have hpoly : poly = [] := by simpa using h0
      subst hpoly
      constructor
      · rintro ⟨q, hq, hne, hcond⟩
        exact ⟨q, List.mem_cons_of_mem _ hq, hne, hcond⟩
      · rintro ⟨q, hq, hne, hcond⟩
        rcases List.mem_cons.mp hq with rfl | hq'
        · exact absurd rfl hne
        · exact ⟨q, hq', hne, hcond⟩
    · rw [if_neg h0]
      have hne : poly ≠ [] := by simpa using h0
      by_cases h1 : pointInPolygon lat0 lon0 (castPoly poly) = true
      · rw [if_pos h1]
        constructor
        · intro _
          exact ⟨poly, List.mem_cons_self _ _, hne, Or.inl h1⟩
        · intro _
          rfl
      · rw [if_neg h1]
        by_cases h2 : minDistanceToPolygonM lat0 lon0 (castPoly poly) ≤ maxR
        · rw [if_pos (decide_eq_true h2)]
          constructor
          · intro _
            exact ⟨poly, List.mem_cons_self _ _, hne, Or.inr h2⟩
          · intro _
            rfl
        · rw [if_neg (fun hd => h2 (of_decide_eq_true hd)), ih]
          constructor
          · rintro ⟨q, hq, hq1, hq2⟩
            exact ⟨q, List.mem_cons_of_mem _ hq, hq1, hq2⟩
          · rintro ⟨q, hq, hq1, hq2⟩
            rcases List.mem_cons.mp hq with rfl | hq'
            · rcases hq2 with hin | hdist
              · exact absurd hin h1
              · exact absurd hdist h2
            · exact ⟨q, hq', hq1, hq2⟩

/-- The evaluator is `find?` with the active-and-geofenced predicate. -/
theorem getActiveItem_eq_find (items : List NLItem) (lat0 lon0 maxR : ℝ) (now : ℚ) :
    getActiveItem items lat0 lon0 maxR now
      = items.find? fun it =>
          isActive it now && anyPolygonHit lat0 lon0 maxR (iterPolygons it.area) := by
  induction items with
  | nil => rfl
  | cons item rest ih =>
    unfold getActiveItem
    by_cases h1 : isActive item now = true
    · by_cases h2 : anyPolygonHit lat0 lon0 maxR (iterPolygons item.area) = true
      · rw [if_pos h1, if_pos h2, List.find?_cons_of_pos _ (by simp [h1, h2])]
      · rw [if_pos h1, if_neg h2, ih, List.find?_cons_of_neg _ (by simp [h1, h2])]
    · rw [if_neg h1, ih, List.find?_cons_of_neg _ (by simp [h1])]

/-- C1: the geofence evaluator returns the first item, in input order, that
is currently active and has a non-empty parsed polygon containing the
reference point or within the radius of it; empty polygons are skipped and
the verdict is `"safe"` exactly when no item qualifies. -/
theorem getActiveItem_spec :
    ∀ (items : List NLItem) (lat0 lon0 maxRadiusM : ℝ) (now : ℚ),
      getActiveItem items lat0 lon0 maxRadiusM now
        = items.find? (fun it =>
            isActive it now && anyPolygonHit lat0 lon0 maxRadiusM (iterPolygons it.area)) ∧
      (∀ polys : List Polygon,
        anyPolygonHit lat0 lon0 maxRadiusM polys = true ↔
          ∃ poly ∈ polys, poly ≠ [] ∧
            (pointInPolygon lat0 lon0 (castPoly poly) = true ∨
              minDistanceToPolygonM lat0 lon0 (castPoly poly) ≤ maxRadiusM)) ∧
      (nlAlertState items lat0 lon0 maxRadiusM now = "safe" ↔
        getActiveItem items lat0 lon0 maxRadiusM now = none) := by
  intro items lat0 lon0 maxR now
  refine ⟨getActiveItem_eq_find items lat0 lon0 maxR now,
    anyPolygonHit_iff lat0 lon0 maxR, ?_⟩
  unfold nlAlertState
  split_ifs with h
  · constructor
    · intro habs
      exact absurd habs (by decide)
    · intro hnone
      rw [hnone] at h
      exact absurd h (by decide)
  · constructor
    · intro _
      exact Option.not_isSome_iff_eq_none.mp h
    · intro _
      rfl

/-- C1 witness: with no items the evaluator returns nothing and the state
is `"safe"`. -/
theorem getActiveItem_spec_witness :
    nlAlertState [] 0 0 0 0 = "safe" :=
  (getActiveItem_spec [] 0 0 0 0).2.2.mpr rfl

/-- C6: the prepared neighborhood-watch actions are sorted by start
timestamp descending, an action with a missing start (coerced to `None`)
being keyed as epoch 0; for start timestamps 100, 300, 200 and one missing
the output order is 300, 200, 100, missing. -/
theorem prepareBurgernetActions_sorted :
    (∀ (payload : BurgernetPayload) (lat0 lon0 : ℝ) (maxR : Option ℝ) (fmt : ℚ → String),
      List.Sorted actionDescOrder (prepareBurgernetActions payload lat0 lon0 maxR fmt)) ∧
    (prepareBurgernetActions demoSortPayload 0 0 none demoFmt).map (·.id)
      = [some "b300", some "c200", some "a100", some "dmiss"] := by
  constructor
  · intro payload lat0 lon0 maxR fmt
    haveI : IsTotal PreparedAction actionDescOrder :=
      ⟨fun a b => le_total (actionSortKey b) (actionSortKey a)⟩
    haveI : IsTrans PreparedAction actionDescOrder :=
      ⟨fun _ _ _ h1 h2 => le_trans h2 h1⟩
    exact List.sorted_insertionSort actionDescOrder _
  · norm_num [prepareBurgernetActions, extractBurgernetActions, demoSortPayload,
      collectPreparedActions, prepareBurgernetAction, mkDemoAction, sortedRawMessages,
      coerceEpochSeconds, actionDescOrder, actionSortKey]

/-- C10: for a prepared action that is closed, the exposed latest message
text is the latest message's body-or-title with the literal suffix
` (case closed)` appended (when that text is non-empty); for an active
action the text is exposed unmodified. -/
theorem prepareBurgernetAction_latestMessage :
    ∀ (a : RawAction) (lat0 lon0 : ℝ) (maxR : Option ℝ) (fmt : ℚ → String)
      (p : PreparedAction),
      prepareBurgernetAction a lat0 lon0 maxR fmt = some p →
      (a.active = false →
        ∀ m t, (sortedRawMessages (a.messages.getD [])).getLast? = some m →
          pyOrStr m.body m.title = some t → t ≠ "" →
          p.latest_message = some (t ++ " (case closed)")) ∧
      (a.active = true →
        p.latest_message =
          ((sortedRawMessages (a.messages.getD [])).getLast?.bind fun m =>
            pyOrStr m.body m.title)) := by
  intro a lat0 lon0 maxR fmt p hp
  have hmain : p.latest_message
      = latestMessageText a.active (sortedRawMessages (a.messages.getD [])) := by
    unfold prepareBurgernetAction at hp
    rcases ha : a.area with _ | ⟨alat, alng, ard⟩
    · rw [ha] at hp
      simp at hp
    · rw [ha] at hp
      rcases alat with _ | clat
      · simp at hp
      · rcases alng with _ | clng
        · simp at hp
        · rcases maxR with _ | r
          · simp only [Option.getD_some, Bool.false_eq_true, if_false,
              Option.some.injEq] at hp
            rw [← hp]
          · by_cases hd : haversine lat0 lon0 (clat : ℝ) (clng : ℝ) > r
            · simp [hd] at hp
            · simp only [Option.getD_some, hd, decide_eq_true_eq, if_false,
                Option.some.injEq] at hp
              rw [← hp]
  constructor
  · intro hact m t hm ht hne
    rw [hmain]
    simp only [latestMessageText, hm, ht, hact, hne, ne_eq, not_false_iff, and_self, if_true]
  · intro hact
    rw [hmain]
    cases hm : (sortedRawMessages (a.messages.getD [])).getLast? with
    | none => simp [latestMessageText, hm]
    | some m =>
      cases hpt : pyOrStr m.body m.title with
      | none => simp [latestMessageText, hm, hpt]
      | some t => simp [latestMessageText, hm, hpt, hact]

/-- C10 witness: a concrete closed action with one message whose body is
`Seen near park` exposes `Seen near park (case closed)`. -/
theorem prepareBurgernetAction_latestMessage_witness :
    (prepareBurgernetAction demoClosedAction 0 0 none demoFmt).map (·.latest_message)
      = some (some "Seen near park (case closed)") := by
  obtain ⟨p, hp⟩ : ∃ p, prepareBurgernetAction demoClosedAction 0 0 none demoFmt = some p :=
    ⟨_, rfl⟩
  have h := (prepareBurgernetAction_latestMessage demoClosedAction 0 0 none demoFmt p hp).1
    rfl demoMsg "Seen near park" rfl rfl (by decide)
  rw [hp, Option.map_some', h]
  rfl

/-- C6 witness: the sortedness statement instantiated at the concrete
four-action payload. -/
theorem prepareBurgernetActions_sorted_witness :
    List.Sorted actionDescOrder (prepareBurgernetActions demoSortPayload 0 0 none demoFmt) :=
  prepareBurgernetActions_sorted.1 demoSortPayload 0 0 none demoFmt

/-- C4 witness: the concrete-example conjunct of the amended parser
characterization. -/
theorem iterPolygons_spec_witness :
    iterPolygons (.vStr "52.1,4.3 52.2,4.4 bad_token 52.3,4.5")
      = [[(521/10, 43/10), (261/5, 22/5), (523/10, 9/2)]] :=
  iterPolygons_spec.2.2.2.2
